import Mathlib

/-!
Shallow embedding of the Cost-tracking backend (Python/FastAPI) in Lean 4.

Conventions of the embedding:
* Python floats are modelled as exact rationals; Python round-half-to-even
  is modelled by pyRound / roundTo.
* datetime.date is modelled by PyDate (proleptic Gregorian calendar) with
  dateOrd matching date.toordinal, so date subtraction is ordinal difference.
* datetime.now() is threaded explicitly as a parameter named today (or now).
* Database tables are lists of row structures; SQLAlchemy SELECT with a
  conjunction of conditions is List.filter, scalar_one_or_none is List.find?.
* JSON dictionaries are association lists of (String, JVal), kept in the
  order of the Python dict literals.
-/

/-- Python round() to the nearest integer, ties to even (banker's rounding). -/
def pyRound (q : ℚ) : ℤ :=
  if q - ⌊q⌋ < 1/2 then ⌊q⌋
  else if 1/2 < q - ⌊q⌋ then ⌊q⌋ + 1
  else if ⌊q⌋ % 2 = 0 then ⌊q⌋ else ⌊q⌋ + 1

/-- Python round(x, n): round to n decimal digits, ties to even. -/
def roundTo (n : ℕ) (q : ℚ) : ℚ := (pyRound (q * 10 ^ n) : ℚ) / 10 ^ n

/-- Proleptic Gregorian calendar date, as Python datetime.date. -/
structure PyDate where
  year : ℕ
  month : ℕ
  day : ℕ
deriving DecidableEq, Repr

def isLeapYear (y : ℕ) : Bool := y % 4 == 0 && (y % 100 != 0 || y % 400 == 0)

def days_in_month (y m : ℕ) : ℕ :=
  if m = 2 then (if isLeapYear y then 29 else 28)
  else if m = 4 ∨ m = 6 ∨ m = 9 ∨ m = 11 then 30
  else 31

def daysBeforeMonth (y m : ℕ) : ℕ :=
  (List.range (m - 1)).foldl (fun acc i => acc + days_in_month y (i + 1)) 0

/-- date.toordinal: day 1 of year 1 is ordinal 1. -/
def dateOrd (d : PyDate) : ℤ :=
  let y := d.year - 1
  365 * (y : ℤ) + ((y / 4 : ℕ) : ℤ) - ((y / 100 : ℕ) : ℤ) + ((y / 400 : ℕ) : ℤ)
    + ((daysBeforeMonth d.year d.month : ℕ) : ℤ) + (d.day : ℤ)

/-- Python date comparison: lexicographic on (year, month, day). -/
def dateLt (a b : PyDate) : Bool :=
  a.year < b.year ||
    (a.year == b.year &&
      (a.month < b.month || (a.month == b.month && a.day < b.day)))

def isDigitChar (c : Char) : Bool := '0' ≤ c && c ≤ '9'

def digitVal (c : Char) : ℕ := c.toNat - Char.toNat '0'

def parseDigits (cs : List Char) : Option ℕ :=
  if cs ≠ [] ∧ cs.all isDigitChar then
    some (cs.foldl (fun a c => 10 * a + digitVal c) 0)
  else none

def splitOnDash : List Char → List (List Char)
  | [] => [[]]
  | c :: rest =>
    let r := splitOnDash rest
    if c = '-' then [] :: r
    else
      match r with
      | [] => [[c]]
      | h :: t => (c :: h) :: t

/-- datetime.strptime(date_str, "%Y-%m-%d").date(): the year takes exactly
four digits, month and day take one or two digits, then the datetime
constructor checks ranges (year at least 1, month 1..12, day within the
month). Any failure raises ValueError, modelled as none. -/
def parse_date (s : String) : Option PyDate :=
  match splitOnDash s.toList with
  | [ys, ms, ds] =>
    if ys.length = 4 ∧ 1 ≤ ms.length ∧ ms.length ≤ 2 ∧ 1 ≤ ds.length ∧ ds.length ≤ 2 then
      match parseDigits ys, parseDigits ms, parseDigits ds with
      | some y, some m, some d =>
        if 1 ≤ y ∧ 1 ≤ m ∧ m ≤ 12 ∧ 1 ≤ d ∧ d ≤ days_in_month y m then
          some ⟨y, m, d⟩
        else none
      | _, _, _ => none
    else none
  | _ => none

def padNum (width n : ℕ) : String :=
  let s := toString n
  String.mk (List.replicate (width - s.length) '0') ++ s

/-- strftime("%Y-%m-%d"). -/
def format_date (d : PyDate) : String :=
  padNum 4 d.year ++ "-" ++ padNum 2 d.month ++ "-" ++ padNum 2 d.day

/-- get_days_since: (today - purchase_date).days. -/
def get_days_since (today purchase : PyDate) : ℤ :=
  dateOrd today - dateOrd purchase

/-- calculate_daily_cost from src/utils/datetime_utils.py:
days_used = max(1, (today - purchase_date).days);
return round(purchase_amount / days_used, 4). -/
def calculate_daily_cost (purchase_amount : ℚ) (purchase_date : PyDate)
    (today : PyDate) : ℚ :=
  let days_used : ℤ := max 1 (get_days_since today purchase_date)
  roundTo 4 (purchase_amount / (days_used : ℚ))

/-- JSON-serialisable values appearing in response bodies. -/
inductive JVal where
  | jNull
  | jBool (b : Bool)
  | jInt (n : ℤ)
  | jNum (q : ℚ)
  | jStr (s : String)
  | jArr (xs : List JVal)
  | jObj (fields : List (String × JVal))

/-- A Python dict with string keys, in literal order. -/
abbrev PyDict := List (String × JVal)

def lookupField (r : PyDict) (k : String) : Option JVal :=
  (r.find? (fun p => p.1 == k)).map (fun p => p.2)

def getIntField (r : PyDict) (k : String) : Option ℤ :=
  match lookupField r k with
  | some (JVal.jInt n) => some n
  | _ => none

def getStrField (r : PyDict) (k : String) : Option String :=
  match lookupField r k with
  | some (JVal.jStr s) => some s
  | _ => none

def getBoolField (r : PyDict) (k : String) : Option Bool :=
  match lookupField r k with
  | some (JVal.jBool b) => some b
  | _ => none

def dictKeys (r : PyDict) : List String := r.map (fun p => p.1)

/-- success_response from src/utils/response.py; Python defaults are
message = "操作成功" and code = 200 at each call site. -/
def success_response (data : JVal) (message : String) (code : ℤ) : PyDict :=
  [("success", JVal.jBool true),
   ("message", JVal.jStr message),
   ("data", data),
   ("code", JVal.jInt code)]

/-- error_response from src/utils/response.py. The positional parameter
order is (message, error_code, data, code) with defaults error_code = None,
data = None, code = 400, exactly as in the Python signature. -/
def error_response (message : String) (error_code : Option String)
    (data : JVal) (code : ℤ) : PyDict :=
  [("success", JVal.jBool false),
   ("message", JVal.jStr message),
   ("error_code", match error_code with | some s => JVal.jStr s | none => JVal.jNull),
   ("data", data),
   ("code", JVal.jInt code)]

/-- Python integer floor division, as used by paginated_response. -/
def pyFloorDiv (a b : ℤ) : ℤ := Int.fdiv a b

/-- paginated_response from src/utils/response.py:
pages = (total + size - 1) // size. -/
def paginated_response (items : List JVal) (total : ℤ) (page : ℤ) (size : ℤ)
    (message : String) : PyDict :=
  let pages := pyFloorDiv (total + size - 1) size
  [("success", JVal.jBool true),
   ("message", JVal.jStr message),
   ("data", JVal.jObj
      [("items", JVal.jArr items),
       ("total", JVal.jInt total),
       ("page", JVal.jInt page),
       ("size", JVal.jInt size),
       ("pages", JVal.jInt pages)]),
   ("code", JVal.jInt 200)]

/-- The pages value inside the data object of a paginated response. -/
def getPagesField (r : PyDict) : Option ℤ :=
  match lookupField r "data" with
  | some (JVal.jObj d) => getIntField d "pages"
  | _ => none

/-- A row of the items table (src/db/models.py, class Item). created_at and
updated_at are timestamps; isoformat rendering is modelled by toString. -/
structure ItemRow where
  id : ℤ
  user_id : ℤ
  name : String
  purchase_date : PyDate
  purchase_amount : ℚ
  daily_cost : ℚ
  is_delete : Bool
  created_at : ℤ
  updated_at : ℤ
deriving DecidableEq, Repr

/-- A row of the users table (src/db/models.py, class User). -/
structure UserRow where
  id : ℤ
  openid : String
  nickname : Option String
  is_delete : Bool
deriving DecidableEq, Repr

def charsStartWith : List Char → List Char → Bool
  | _, [] => true
  | [], _ :: _ => false
  | c :: cs, d :: ds => c == d && charsStartWith cs ds

def charsContain (needle : List Char) : List Char → Bool
  | [] => needle.isEmpty
  | c :: rest => charsStartWith (c :: rest) needle || charsContain needle rest

/-- SQL LIKE with wildcards on both sides: substring match. -/
def strContains (hay needle : String) : Bool :=
  charsContain needle.toList hay.toList

/-- A FastAPI Query(None) string parameter tested with a Python truthiness
check: None and the empty string both skip the condition. -/
def optQueryParam (p : Option String) : Option String :=
  match p with
  | none => none
  | some s => if s == "" then none else some s

/-- The sortable Item columns; getattr(Item, sort_by, Item.purchase_date). -/
inductive SortCol where
  | colId
  | colUserId
  | colName
  | colPurchaseDate
  | colPurchaseAmount
  | colDailyCost
  | colIsDelete
  | colCreatedAt
  | colUpdatedAt
deriving DecidableEq, Repr

def resolveSortColumn (s : String) : SortCol :=
  if s == "id" then SortCol.colId
  else if s == "user_id" then SortCol.colUserId
  else if s == "name" then SortCol.colName
  else if s == "purchase_date" then SortCol.colPurchaseDate
  else if s == "purchase_amount" then SortCol.colPurchaseAmount
  else if s == "daily_cost" then SortCol.colDailyCost
  else if s == "is_delete" then SortCol.colIsDelete
  else if s == "created_at" then SortCol.colCreatedAt
  else if s == "updated_at" then SortCol.colUpdatedAt
  else SortCol.colPurchaseDate

def colLe (c : SortCol) (a b : ItemRow) : Bool :=
  match c with
  | SortCol.colId => a.id ≤ b.id
  | SortCol.colUserId => a.user_id ≤ b.user_id
  | SortCol.colName => a.name < b.name || a.name == b.name
  | SortCol.colPurchaseDate => !dateLt b.purchase_date a.purchase_date
  | SortCol.colPurchaseAmount => a.purchase_amount ≤ b.purchase_amount
  | SortCol.colDailyCost => a.daily_cost ≤ b.daily_cost
  | SortCol.colIsDelete => !a.is_delete || b.is_delete
  | SortCol.colCreatedAt => a.created_at ≤ b.created_at
  | SortCol.colUpdatedAt => a.updated_at ≤ b.updated_at

def sortComparator (sort_by sort_order : String) : ItemRow → ItemRow → Bool :=
  let c := resolveSortColumn sort_by
  if sort_order == "asc" then colLe c else fun a b => colLe c b a

def insertSorted (le : ItemRow → ItemRow → Bool) (x : ItemRow) :
    List ItemRow → List ItemRow
  | [] => [x]
  | y :: ys => if le x y then x :: y :: ys else y :: insertSorted le x ys

/-- SQL ORDER BY, modelled as a stable insertion sort. -/
def orderBy (le : ItemRow → ItemRow → Bool) : List ItemRow → List ItemRow
  | [] => []
  | x :: xs => insertSorted le x (orderBy le xs)

/-- The WHERE conjunction built by get_items: user_id match, not deleted,
optional name LIKE search, optional purchase_date range. -/
def itemConds (uid : ℤ) (search : Option String) (sd ed : Option PyDate)
    (r : ItemRow) : Bool :=
  r.user_id == uid && !r.is_delete &&
    (match search with
     | none => true
     | some s => strContains r.name s) &&
    (match sd with
     | none => true
     | some d => !dateLt r.purchase_date d) &&
    (match ed with
     | none => true
     | some d => !dateLt d r.purchase_date)

/-- Raw body of POST /api/items (class ItemCreate before validation). -/
structure ItemCreateRaw where
  name : String
  purchase_date : String
  purchase_amount : ℚ
deriving DecidableEq, Repr

/-- Raw body of PUT /api/items/{id} (class ItemUpdate before validation). -/
structure ItemUpdateRaw where
  name : Option String
  purchase_date : Option String
  purchase_amount : Option ℚ
deriving DecidableEq, Repr

/-- Field(..., min_length=1, max_length=255). -/
def validate_name (s : String) : Except String String :=
  if 1 ≤ s.length ∧ s.length ≤ 255 then Except.ok s
  else Except.error "名称长度无效"

/-- validate_amount: reject v <= 0 (also enforced by Field(gt=0)), then
round(v, 2). -/
def validate_amount (v : ℚ) : Except String ℚ :=
  if v ≤ 0 then Except.error "购买金额必须大于0" else Except.ok (roundTo 2 v)

/-- validate_date: parse as YYYY-MM-DD, reject dates after today. The
ValueError raised for a future date is itself caught by the except clause
of the validator, so both failures surface the format message. -/
def validate_date_str (today : PyDate) (v : String) : Except String String :=
  match parse_date v with
  | some d =>
    if dateLt today d then Except.error "日期格式无效，请使用 YYYY-MM-DD 格式"
    else Except.ok v
  | none => Except.error "日期格式无效，请使用 YYYY-MM-DD 格式"

/-- Pydantic validation of an ItemCreate body, field by field. -/
def validateItemCreate (today : PyDate) (raw : ItemCreateRaw) :
    Except String ItemCreateRaw :=
  match validate_name raw.name with
  | Except.error e => Except.error e
  | Except.ok n =>
    match validate_date_str today raw.purchase_date with
    | Except.error e => Except.error e
    | Except.ok d =>
      match validate_amount raw.purchase_amount with
      | Except.error e => Except.error e
      | Except.ok a => Except.ok ⟨n, d, a⟩

/-- An optional-field pydantic validator: None fields are skipped
(each ItemUpdate validator starts with "if v is not None"). -/
def validateOptField (f : α → Except String β) : Option α → Except String (Option β)
  | none => Except.ok none
  | some x =>
    match f x with
    | Except.error e => Except.error e
    | Except.ok y => Except.ok (some y)

/-- Pydantic validation of an ItemUpdate body, field by field. -/
def validateItemUpdate (today : PyDate) (raw : ItemUpdateRaw) :
    Except String ItemUpdateRaw :=
  match validateOptField validate_name raw.name with
  | Except.error e => Except.error e
  | Except.ok n =>
    match validateOptField (validate_date_str today) raw.purchase_date with
    | Except.error e => Except.error e
    | Except.ok d =>
      match validateOptField validate_amount raw.purchase_amount with
      | Except.error e => Except.error e
      | Except.ok a => Except.ok ⟨n, d, a⟩

/-- The WHERE clause shared by get_item, update_item and delete_item:
Item.id == item_id AND Item.user_id == current_user.id AND
Item.is_delete == False. -/
def item_lookup_cond (uid item_id : ℤ) (r : ItemRow) : Bool :=
  r.id == item_id && r.user_id == uid && !r.is_delete

def itemListEntry (today : PyDate) (r : ItemRow) : JVal :=
  JVal.jObj
    [("id", JVal.jInt r.id),
     ("name", JVal.jStr r.name),
     ("purchase_date", JVal.jStr (format_date r.purchase_date)),
     ("purchase_amount", JVal.jNum r.purchase_amount),
     ("daily_cost", JVal.jNum (calculate_daily_cost r.purchase_amount r.purchase_date today)),
     ("days_used", JVal.jInt (get_days_since today r.purchase_date)),
     ("created_at", JVal.jStr (toString r.created_at))]

def itemDetailEntry (today : PyDate) (r : ItemRow) : JVal :=
  JVal.jObj
    [("id", JVal.jInt r.id),
     ("name", JVal.jStr r.name),
     ("purchase_date", JVal.jStr (format_date r.purchase_date)),
     ("purchase_amount", JVal.jNum r.purchase_amount),
     ("daily_cost", JVal.jNum (calculate_daily_cost r.purchase_amount r.purchase_date today)),
     ("days_used", JVal.jInt (get_days_since today r.purchase_date)),
     ("created_at", JVal.jStr (toString r.created_at)),
     ("updated_at", JVal.jStr (toString r.updated_at))]

def createdItemEntry (today : PyDate) (r : ItemRow) : JVal :=
  JVal.jObj
    [("id", JVal.jInt r.id),
     ("name", JVal.jStr r.name),
     ("purchase_date", JVal.jStr (format_date r.purchase_date)),
     ("purchase_amount", JVal.jNum r.purchase_amount),
     ("daily_cost", JVal.jNum r.daily_cost),
     ("days_used", JVal.jInt (get_days_since today r.purchase_date)),
     ("created_at", JVal.jStr (toString r.created_at))]

def updatedItemEntry (today : PyDate) (r : ItemRow) : JVal :=
  JVal.jObj
    [("id", JVal.jInt r.id),
     ("name", JVal.jStr r.name),
     ("purchase_date", JVal.jStr (format_date r.purchase_date)),
     ("purchase_amount", JVal.jNum r.purchase_amount),
     ("daily_cost", JVal.jNum r.daily_cost),
     ("days_used", JVal.jInt (get_days_since today r.purchase_date)),
     ("updated_at", JVal.jStr (toString r.updated_at))]

/-- Optional date-range query parameter of get_items: an absent or empty
parameter adds no condition, an unparsable one returns an error envelope. -/
def parseOptDate (p : Option String) (errMsg errCode : String) :
    Except PyDict (Option PyDate) :=
  match optQueryParam p with
  | none => Except.ok none
  | some s =>
    match parse_date s with
    | some d => Except.ok (some d)
    | none => Except.error (error_response errMsg (some errCode) JVal.jNull 400)

def get_items_selected (uid : ℤ) (search : Option String) (sd ed : Option PyDate)
    (db : List ItemRow) : List ItemRow :=
  db.filter (itemConds uid search sd ed)

def get_items_page_rows (uid : ℤ) (search : Option String) (sd ed : Option PyDate)
    (sort_by sort_order : String) (page size : ℤ) (db : List ItemRow) : List ItemRow :=
  let sorted := orderBy (sortComparator sort_by sort_order)
    (get_items_selected uid search sd ed db)
  (sorted.drop ((page - 1) * size).toNat).take size.toNat

/-- GET /api/items/ (get_items in src/router/items.py). -/
def get_items (today : PyDate) (uid : ℤ) (page size : ℤ)
    (search start_date end_date : Option String) (sort_by sort_order : String)
    (db : List ItemRow) : PyDict :=
  match parseOptDate start_date "开始日期格式无效" "INVALID_START_DATE" with
  | Except.error e => e
  | Except.ok sd =>
    match parseOptDate end_date "结束日期格式无效" "INVALID_END_DATE" with
    | Except.error e => e
    | Except.ok ed =>
      paginated_response
        ((get_items_page_rows uid (optQueryParam search) sd ed sort_by sort_order
            page size db).map (itemListEntry today))
        (get_items_selected uid (optQueryParam search) sd ed db).length
        page size "查询物品列表成功"

/-- The catch-all except branch of get_items; an exception raised by the
database layer is modelled as the error side of the Except argument. -/
def get_items_endpoint (today : PyDate) (uid : ℤ) (page size : ℤ)
    (search start_date end_date : Option String) (sort_by sort_order : String)
    (dbres : Except String (List ItemRow)) : PyDict :=
  match dbres with
  | Except.error e =>
    error_response ("查询物品列表失败: " ++ e) (some "GET_ITEMS_ERROR") JVal.jNull 400
  | Except.ok db =>
    get_items today uid page size search start_date end_date sort_by sort_order db

/-- GET /api/items/{item_id}. In the source the not-found branch is
error_response("物品不存在", "ITEM_NOT_FOUND", 404): the literal 404 is the
third positional argument, which is the data parameter, so the code
parameter keeps its default 400. -/
def get_item (today : PyDate) (uid item_id : ℤ) (db : List ItemRow) : PyDict :=
  match db.find? (item_lookup_cond uid item_id) with
  | none => error_response "物品不存在" (some "ITEM_NOT_FOUND") (JVal.jInt 404) 400
  | some item => success_response (itemDetailEntry today item) "获取物品详情成功" 200

/-- POST /api/items/ (create_item). A request-model rejection (the Except
error side) happens before the handler body runs, leaving the table
unchanged. -/
def create_item (today : PyDate) (uid newId created_ts : ℤ) (raw : ItemCreateRaw)
    (db : List ItemRow) : Except String PyDict × List ItemRow :=
  match validateItemCreate today raw with
  | Except.error e => (Except.error e, db)
  | Except.ok v =>
    match parse_date v.purchase_date with
    | none =>
      (Except.ok (error_response "日期格式无效，请使用 YYYY-MM-DD 格式"
        (some "VALIDATION_ERROR") (JVal.jInt 400) 400), db)
    | some pd =>
      let item : ItemRow :=
        { id := newId
          user_id := uid
          name := v.name
          purchase_date := pd
          purchase_amount := v.purchase_amount
          daily_cost := calculate_daily_cost v.purchase_amount pd today
          is_delete := false
          created_at := created_ts
          updated_at := created_ts }
      (Except.ok (success_response (createdItemEntry today item) "创建物品成功" 201),
       db ++ [item])

/-- The field assignments of update_item: each non-None field overwrites the
stored one; returns none when the date string fails to parse (unreachable
for validated input, raising ValueError in the source). -/
def applyItemUpdateFields (v : ItemUpdateRaw) (r : ItemRow) : Option ItemRow :=
  let r1 := match v.name with
    | none => r
    | some n => { r with name := n }
  match v.purchase_date with
  | none =>
    some (match v.purchase_amount with
      | none => r1
      | some a => { r1 with purchase_amount := a })
  | some ds =>
    match parse_date ds with
    | none => none
    | some d =>
      let r2 := { r1 with purchase_date := d }
      some (match v.purchase_amount with
        | none => r2
        | some a => { r2 with purchase_amount := a })

/-- PUT /api/items/{item_id} (update_item). After the optional field
updates the daily cost is recomputed from the stored amount and date. -/
def update_item (today : PyDate) (uid item_id now_ts : ℤ) (raw : ItemUpdateRaw)
    (db : List ItemRow) : Except String PyDict × List ItemRow :=
  match validateItemUpdate today raw with
  | Except.error e => (Except.error e, db)
  | Except.ok v =>
    match db.find? (item_lookup_cond uid item_id) with
    | none =>
      (Except.ok (error_response "物品不存在" (some "ITEM_NOT_FOUND") (JVal.jInt 404) 400),
       db)
    | some item =>
      match applyItemUpdateFields v item with
      | none =>
        (Except.ok (error_response "日期格式无效，请使用 YYYY-MM-DD 格式"
          (some "VALIDATION_ERROR") (JVal.jInt 400) 400), db)
      | some r2 =>
        let newItem :=
          { r2 with
            daily_cost := calculate_daily_cost r2.purchase_amount r2.purchase_date today
            updated_at := now_ts }
        (Except.ok (success_response (updatedItemEntry today newItem) "更新物品成功" 200),
         db.map (fun r => if item_lookup_cond uid item_id r then newItem else r))

/-- DELETE /api/items/{item_id} (delete_item): soft delete. -/
def delete_item (uid item_id : ℤ) (db : List ItemRow) : PyDict × List ItemRow :=
  match db.find? (item_lookup_cond uid item_id) with
  | none =>
    (error_response "物品不存在" (some "ITEM_NOT_FOUND") (JVal.jInt 404) 400, db)
  | some _ =>
    (success_response (JVal.jObj [("id", JVal.jInt item_id)]) "删除物品成功" 200,
     db.map (fun r => if item_lookup_cond uid item_id r then { r with is_delete := true } else r))

/-- The WHERE clause of batch_delete_items. -/
def batch_cond (uid : ℤ) (ids : List ℤ) (r : ItemRow) : Bool :=
  ids.contains r.id && r.user_id == uid && !r.is_delete

/-- DELETE /api/items/batch (batch_delete_items): soft delete of every
matching row. -/
def batch_delete_items (uid : ℤ) (ids : List ℤ) (db : List ItemRow) :
    PyDict × List ItemRow :=
  if (db.filter (batch_cond uid ids)).isEmpty then
    (error_response "没有找到要删除的物品" (some "NO_ITEMS_FOUND") (JVal.jInt 404) 400, db)
  else
    (success_response
      (JVal.jObj
        [("deleted_count", JVal.jInt (db.filter (batch_cond uid ids)).length),
         ("item_ids", JVal.jArr ((db.filter (batch_cond uid ids)).map
            (fun r => JVal.jInt r.id)))])
      ("成功删除" ++ toString (db.filter (batch_cond uid ids)).length ++ "个物品") 200,
     db.map (fun r => if batch_cond uid ids r then { r with is_delete := true } else r))

/-- The base WHERE clause of the statistics queries:
Item.user_id == current_user.id AND Item.is_delete == False. -/
def stats_base_cond (uid : ℤ) (r : ItemRow) : Bool :=
  r.user_id == uid && !r.is_delete

/-- Locals of the aggregation loop of get_overview_stats. -/
structure OvAcc where
  total_daily_cost : ℚ
  most_expensive : Option ItemRow
  latest : Option ItemRow
  longest : Option ItemRow
deriving DecidableEq, Repr

def ovStep (today : PyDate) (acc : OvAcc) (r : ItemRow) : OvAcc :=
  let dc := calculate_daily_cost r.purchase_amount r.purchase_date today
  { total_daily_cost := acc.total_daily_cost + dc
    most_expensive :=
      match acc.most_expensive with
      | none => some r
      | some m => if m.purchase_amount < r.purchase_amount then some r else some m
    latest :=
      match acc.latest with
      | none => some r
      | some m => if m.created_at < r.created_at then some r else some m
    longest :=
      match acc.longest with
      | none => some r
      | some m =>
        if get_days_since today m.purchase_date < get_days_since today r.purchase_date
        then some r else some m }

/-- The loop body of get_overview_stats. Once latest_item is set, its
created_at entry holds the isoformat string, so the next comparison
item.created_at > latest_item["created_at"] compares a datetime with a str
and raises TypeError; the walk therefore errors on the second row. -/
def ovLoop (today : PyDate) : List ItemRow → OvAcc → Except String OvAcc
  | [], acc => Except.ok acc
  | r :: rest, acc =>
    match acc.latest with
    | some _ => Except.error "TypeError: datetime and str comparison"
    | none => ovLoop today rest (ovStep today acc r)

def mostExpensiveEntry (today : PyDate) (r : ItemRow) : JVal :=
  JVal.jObj
    [("id", JVal.jInt r.id),
     ("name", JVal.jStr r.name),
     ("purchase_amount", JVal.jNum r.purchase_amount),
     ("purchase_date", JVal.jStr (format_date r.purchase_date)),
     ("daily_cost", JVal.jNum (calculate_daily_cost r.purchase_amount r.purchase_date today))]

def latestEntry (r : ItemRow) : JVal :=
  JVal.jObj
    [("id", JVal.jInt r.id),
     ("name", JVal.jStr r.name),
     ("purchase_amount", JVal.jNum r.purchase_amount),
     ("purchase_date", JVal.jStr (format_date r.purchase_date)),
     ("created_at", JVal.jStr (toString r.created_at))]

def longestEntry (today : PyDate) (r : ItemRow) : JVal :=
  JVal.jObj
    [("id", JVal.jInt r.id),
     ("name", JVal.jStr r.name),
     ("days_used", JVal.jInt (get_days_since today r.purchase_date)),
     ("purchase_date", JVal.jStr (format_date r.purchase_date)),
     ("daily_cost", JVal.jNum (calculate_daily_cost r.purchase_amount r.purchase_date today))]

def optEntry (f : ItemRow → JVal) (o : Option ItemRow) : JVal :=
  match o with
  | none => JVal.jNull
  | some r => f r

/-- GET /api/stats/overview (get_overview_stats in src/router/stats.py). -/
def get_overview_stats (today : PyDate) (uid : ℤ) (db : List ItemRow) : PyDict :=
  let base := db.filter (stats_base_cond uid)
  let total_items : ℤ := base.length
  let total_cost : ℚ := (base.map (fun r => r.purchase_amount)).sum
  match ovLoop today base ⟨0, none, none, none⟩ with
  | Except.error e =>
    error_response ("获取总览统计失败: " ++ e) (some "OVERVIEW_STATS_ERROR") JVal.jNull 400
  | Except.ok acc =>
    let average_daily_cost : ℚ :=
      if 0 < total_items then acc.total_daily_cost / (total_items : ℚ) else 0
    success_response
      (JVal.jObj
        [("total_items", JVal.jInt total_items),
         ("total_cost", JVal.jNum (roundTo 2 total_cost)),
         ("total_daily_cost", JVal.jNum (roundTo 4 acc.total_daily_cost)),
         ("average_daily_cost", JVal.jNum (roundTo 4 average_daily_cost)),
         ("most_expensive_item", optEntry (mostExpensiveEntry today) acc.most_expensive),
         ("latest_item", optEntry latestEntry acc.latest),
         ("longest_used_item", optEntry (longestEntry today) acc.longest)])
      "获取总览统计成功" 200

/-- The user SELECT of get_current_user (src/auth/dependencies.py):
User.id == user_id AND User.is_delete == False, scalar_one_or_none. -/
def get_current_user_lookup (users : List UserRow) (uid : ℤ) : Option UserRow :=
  users.find? (fun u => u.id == uid && !u.is_delete)

/-- The session record stored as JSON under wechat_session:{id}
(src/utils/wechat.py). Timestamps are integers; user_info and token are
the optional kwargs payloads. -/
structure SessionData where
  session_id : String
  state : String
  status : String
  created_at : ℤ
  expires_at : ℤ
  user_info : Option String
  token : Option String
deriving DecidableEq, Repr

/-- A Redis entry set with SETEX: the value plus the instant the key
vanishes. -/
def redisGetSession (store : Option (SessionData × ℤ)) (now : ℤ) :
    Option SessionData :=
  match store with
  | none => none
  | some (d, redisExp) => if redisExp ≤ now then none else some d

def get_status_message (st : String) : String :=
  if st == "pending" then "等待用户扫码"
  else if st == "scanned" then "用户已扫码，等待确认"
  else if st == "confirmed" then "用户已确认"
  else if st == "success" then "登录成功"
  else if st == "failed" then "登录失败"
  else if st == "cancelled" then "用户取消"
  else "未知状态"

def optStrVal (o : Option String) : JVal :=
  match o with
  | none => JVal.jNull
  | some s => JVal.jStr s

/-- get_session_status: a missing key or a stored expires_at in the past
reads as expired, otherwise the stored status is returned. -/
def get_session_status (store : Option (SessionData × ℤ)) (now : ℤ) : PyDict :=
  match redisGetSession store now with
  | none => [("status", JVal.jStr "expired"), ("message", JVal.jStr "会话已过期")]
  | some d =>
    if d.expires_at < now then
      [("status", JVal.jStr "expired"), ("message", JVal.jStr "会话已过期")]
    else
      [("status", JVal.jStr d.status),
       ("message", JVal.jStr (get_status_message d.status)),
       ("user_info", optStrVal d.user_info),
       ("token", optStrVal d.token)]

/-- update_session_status: reads the session, overwrites its status with
the given value (plus any kwargs), and writes it back with a fresh
5-minute Redis TTL; returns False when the key is missing. -/
def update_session_status (store : Option (SessionData × ℤ)) (now : ℤ)
    (status : String) (user_info token : Option String) :
    Bool × Option (SessionData × ℤ) :=
  match redisGetSession store now with
  | none => (false, store)
  | some d =>
    let d2 :=
      { d with
        status := status
        user_info := match user_info with | none => d.user_info | some v => some v
        token := match token with | none => d.token | some v => some v }
    (true, some (d2, now + 300))

/-- Modelled from the spec: the login state machine
pending → scanned → confirmed → success|failed|cancelled claimed in
section 3 of the specification (no transition-checking code exists in the
repository). -/
def specAllowedTransition (fromSt toSt : String) : Bool :=
  (fromSt == "pending" && toSt == "scanned") ||
  (fromSt == "scanned" && toSt == "confirmed") ||
  (fromSt == "confirmed" && (toSt == "success" || toSt == "failed" || toSt == "cancelled"))

/-- The HTTPException handler of src/main.py: (status_code, body). -/
def http_exception_handler (status_code : ℤ) (detail : String) : ℤ × PyDict :=
  (status_code,
   [("success", JVal.jBool false),
    ("message", JVal.jStr detail),
    ("code", JVal.jInt status_code)])

/-- The catch-all Exception handler of src/main.py: (status_code, body). -/
def general_exception_handler (debugMode : Bool) (excMsg tb : String) : ℤ × PyDict :=
  if debugMode then
    (500,
     [("success", JVal.jBool false),
      ("message", JVal.jStr "服务器内部错误"),
      ("error", JVal.jStr excMsg),
      ("traceback", JVal.jStr tb),
      ("code", JVal.jInt 500)])
  else
    (500,
     [("success", JVal.jBool false),
      ("message", JVal.jStr "服务器内部错误"),
      ("code", JVal.jInt 500)])

theorem pyRound_sub_abs_le (q : ℚ) : |((pyRound q : ℤ) : ℚ) - q| ≤ 1 / 2 := by
  have h1 : ((⌊q⌋ : ℤ) : ℚ) ≤ q := Int.floor_le q
  have h2 : q < ⌊q⌋ + 1 := Int.lt_floor_add_one q
  unfold pyRound
  split_ifs with hlt hgt hev
  · rw [abs_le]; constructor <;> linarith
  · rw [abs_le]; push_cast; constructor <;> linarith
  · rw [abs_le]; constructor <;> linarith
  · rw [abs_le]; push_cast; constructor <;> linarith

theorem pyRound_intCast (k : ℤ) : pyRound (k : ℚ) = k := by
  unfold pyRound
  rw [Int.floor_intCast]
  norm_num

theorem roundTo_eq_self {n : ℕ} {q : ℚ} {k : ℤ} (h : q * 10 ^ n = (k : ℚ)) :
    roundTo n q = q := by
  unfold roundTo
  rw [h, pyRound_intCast]
  have h10 : (10 : ℚ) ^ n ≠ 0 := by positivity
  field_simp [← h]

theorem roundTo_sub_abs_le (n : ℕ) (q : ℚ) :
    |roundTo n q - q| ≤ 1 / (2 * 10 ^ n) := by
  unfold roundTo
  have h10 : (0 : ℚ) < 10 ^ n := by positivity
  have hx := pyRound_sub_abs_le (q * 10 ^ n)
  have heq : (pyRound (q * 10 ^ n) : ℚ) / 10 ^ n - q =
      ((pyRound (q * 10 ^ n) : ℚ) - q * 10 ^ n) / 10 ^ n := by
    field_simp
    ring
  rw [heq, abs_div, abs_of_pos h10, div_le_div_iff₀ h10 (by positivity)]
  nlinarith [abs_nonneg ((pyRound (q * 10 ^ n) : ℚ) - q * 10 ^ n)]

/-- C1 counterexample: for an item with purchase amount 1 bought 3 days
before today, calculate_daily_cost returns 3333/10000, which is not the
exact quotient amount / max(1, days elapsed) = 1/3: the function rounds
the quotient to 4 decimal places. -/
theorem c1_counterexample :
    calculate_daily_cost 1 ⟨1, 1, 1⟩ ⟨1, 1, 4⟩ ≠
      1 / ((max 1 (get_days_since ⟨1, 1, 4⟩ ⟨1, 1, 1⟩) : ℤ) : ℚ) := by
  norm_num [calculate_daily_cost, get_days_since, dateOrd, daysBeforeMonth,
    max_def, roundTo, pyRound]

/-- C1 (amended): the daily cost returned by calculate_daily_cost equals
the purchase amount divided by max(1, days elapsed from purchase to today)
ROUNDED TO 4 DECIMAL PLACES — hence it is always within 1/20000 of the
exact quotient — and for a purchase dated today or in the future the
divisor is 1, so whenever the amount has at most 4 decimal places (in
particular any validated 2-decimal amount) the daily cost equals the
amount exactly. -/
theorem c1_daily_cost (amount : ℚ) (purchase today : PyDate) :
    (calculate_daily_cost amount purchase today =
       roundTo 4 (amount / ((max 1 (get_days_since today purchase) : ℤ) : ℚ))) ∧
    (|calculate_daily_cost amount purchase today -
       amount / ((max 1 (get_days_since today purchase) : ℤ) : ℚ)| ≤ 1 / 20000) ∧
    (get_days_since today purchase ≤ 0 → ∀ k : ℤ, amount * 10 ^ 4 = (k : ℚ) →
       calculate_daily_cost amount purchase today = amount) := by
  refine ⟨rfl, ?_, ?_⟩
  · have h := roundTo_sub_abs_le 4
      (amount / ((max 1 (get_days_since today purchase) : ℤ) : ℚ))
    calc |calculate_daily_cost amount purchase today -
        amount / ((max 1 (get_days_since today purchase) : ℤ) : ℚ)|
        ≤ 1 / (2 * 10 ^ 4) := h
      _ ≤ 1 / 20000 := by norm_num
  · intro hd k hk
    have hmax : max 1 (get_days_since today purchase) = 1 :=
      max_eq_left (by omega)
    show roundTo 4 (amount / ((max 1 (get_days_since today purchase) : ℤ) : ℚ)) = amount
    rw [hmax]
    norm_num
    exact roundTo_eq_self hk

/-- C1 witness: a concrete same-day purchase with a 2-decimal amount. -/
theorem c1_daily_cost_witness :
    get_days_since ⟨1, 1, 1⟩ ⟨1, 1, 1⟩ ≤ 0 ∧
    (123 : ℚ) / 100 * 10 ^ 4 = ((12300 : ℤ) : ℚ) ∧
    calculate_daily_cost (123 / 100) ⟨1, 1, 1⟩ ⟨1, 1, 1⟩ = 123 / 100 :=
  ⟨by norm_num [get_days_since], by norm_num,
   (c1_daily_cost (123 / 100) ⟨1, 1, 1⟩ ⟨1, 1, 1⟩).2.2
     (by norm_num [get_days_since]) 12300 (by norm_num)⟩

/-- C10: for a paginated response with size at least 1 and nonnegative
total, the pages field equals (total + size - 1) // size in exact integer
arithmetic, is 0 when total is 0, and is the ceiling of total / size:
pages * size >= total > (pages - 1) * size whenever total > 0. -/
theorem c10_pages_ceiling (items : List JVal) (total page size : ℤ)
    (message : String) (hsize : 1 ≤ size) (htotal : 0 ≤ total) :
    ∃ p : ℤ,
      getPagesField (paginated_response items total page size message) = some p ∧
      p = pyFloorDiv (total + size - 1) size ∧
      (total = 0 → p = 0) ∧
      (0 < total → total ≤ p * size ∧ (p - 1) * size < total) := by
  refine ⟨pyFloorDiv (total + size - 1) size, rfl, rfl, ?_, ?_⟩
  · intro h0
    subst h0
    show Int.fdiv (0 + size - 1) size = 0
    rw [Int.fdiv_eq_ediv _ (by omega)]
    exact Int.ediv_eq_zero_of_lt (by omega) (by omega)
  · intro hpos
    have hsz : (0 : ℤ) < size := by omega
    have hfd : pyFloorDiv (total + size - 1) size = (total + size - 1) / size :=
      Int.fdiv_eq_ediv _ (by omega)
    have hmod := Int.ediv_add_emod (total + size - 1) size
    have h0 : 0 ≤ (total + size - 1) % size := Int.emod_nonneg _ (by omega)
    have h1 : (total + size - 1) % size < size := Int.emod_lt_of_pos _ hsz
    rw [hfd]
    constructor
    · rw [mul_comm]
      linarith
    · rw [sub_mul, one_mul, mul_comm]
      linarith

/-- C6 counterexample: error_response produces a fifth field error_code,
so its output does not consist of exactly {success, message, data, code}. -/
theorem c6_counterexample :
    dictKeys (error_response "出错" (some "SOME_CODE") JVal.jNull 400) ≠
      ["success", "message", "data", "code"] := by decide

/-- C6 (amended): success and paginated envelopes consist of exactly the
fields {success, message, data, code} in that order, with boolean success
and integer code; envelopes from error_response additionally carry an
error_code field between message and data. -/
theorem c6_envelope_fields (data : JVal) (message : String) (code : ℤ)
    (items : List JVal) (total page size : ℤ) (emsg : String)
    (ecode : Option String) (edata : JVal) (ehttp : ℤ) :
    dictKeys (success_response data message code) =
      ["success", "message", "data", "code"] ∧
    dictKeys (paginated_response items total page size message) =
      ["success", "message", "data", "code"] ∧
    dictKeys (error_response emsg ecode edata ehttp) =
      ["success", "message", "error_code", "data", "code"] ∧
    getBoolField (success_response data message code) "success" = some true ∧
    getBoolField (error_response emsg ecode edata ehttp) "success" = some false ∧
    getIntField (success_response data message code) "code" = some code ∧
    getIntField (error_response emsg ecode edata ehttp) "code" = some ehttp :=
  ⟨rfl, rfl, rfl, rfl, rfl, rfl, rfl⟩

/-- C5: when no matching non-deleted item exists, get_item, update_item and
delete_item return the envelope built by
error_response("物品不存在", "ITEM_NOT_FOUND", 404), whose third positional
argument is the data parameter: the envelope carries error_code
ITEM_NOT_FOUND but its code field is the default 400, with the intended
HTTP status 404 sitting in the data field. -/
theorem c5_item_not_found_code :
    (getStrField (get_item ⟨1, 1, 1⟩ 1 99 []) "error_code" = some "ITEM_NOT_FOUND" ∧
     getIntField (get_item ⟨1, 1, 1⟩ 1 99 []) "code" = some 400 ∧
     getIntField (get_item ⟨1, 1, 1⟩ 1 99 []) "data" = some 404) ∧
    (update_item ⟨1, 1, 1⟩ 1 99 0 ⟨none, none, none⟩ []).1 =
      Except.ok (error_response "物品不存在" (some "ITEM_NOT_FOUND") (JVal.jInt 404) 400) ∧
    (delete_item 1 99 []).1 =
      error_response "物品不存在" (some "ITEM_NOT_FOUND") (JVal.jInt 404) 400 ∧
    getIntField (error_response "物品不存在" (some "ITEM_NOT_FOUND") (JVal.jInt 404) 400)
      "code" = some 400 :=
  ⟨⟨rfl, rfl, rfl⟩, rfl, rfl, rfl⟩

/-- C8 counterexample: an exception raised while get_items runs is caught
by the endpoint's own catch-all except clause and converted to an envelope
whose code is the error_response default 400, not 500. -/
theorem c8_counterexample :
    getIntField
      (get_items_endpoint ⟨1, 1, 1⟩ 1 1 10 none none none "purchase_date" "desc"
        (Except.error "db failure")) "code" = some 400 :=
  rfl

/-- C8 (amended): only exceptions that escape the endpoint handlers are
converted by general_exception_handler to a 500 envelope (HTTP status 500,
success false, code 500, in debug and production mode alike); an exception
raised inside an endpoint's try block is caught by that endpoint's
catch-all clause and converted to an error envelope with success false and
the default code 400. -/
theorem c8_exception_envelopes (debugMode : Bool) (excMsg tb : String)
    (today : PyDate) (uid page size : ℤ)
    (search sd ed : Option String) (sb so : String) :
    ((general_exception_handler debugMode excMsg tb).1 = 500 ∧
     getBoolField (general_exception_handler debugMode excMsg tb).2 "success" =
       some false ∧
     getIntField (general_exception_handler debugMode excMsg tb).2 "code" =
       some 500) ∧
    (getBoolField
        (get_items_endpoint today uid page size search sd ed sb so
          (Except.error excMsg)) "success" = some false ∧
     getIntField
        (get_items_endpoint today uid page size search sd ed sb so
          (Except.error excMsg)) "code" = some 400) := by
  constructor
  · cases debugMode <;> exact ⟨rfl, rfl, rfl⟩
  · exact ⟨rfl, rfl⟩

/-- C7 counterexample: update_session_status enforces no transition order:
a session whose stored status is already success is moved back to pending,
a transition outside the state machine claimed by the spec. -/
theorem c7_counterexample :
    (update_session_status
        (some (⟨"s1", "st", "success", 0, 300, none, none⟩, 300)) 10
        "pending" none none).1 = true ∧
    (update_session_status
        (some (⟨"s1", "st", "success", 0, 300, none, none⟩, 300)) 10
        "pending" none none).2 =
      some (⟨"s1", "st", "pending", 0, 300, none, none⟩, 310) ∧
    specAllowedTransition "success" "pending" = false := by
  refine ⟨?_, ?_, by decide⟩ <;> decide

/-- C7 (amended): update_session_status overwrites the stored status with
whatever value it is given (no transition checking; it fails only when the
key is gone from the store); the expiry half of the claim holds: querying
an absent session, or one whose Redis key has lapsed, or one whose stored
expires_at lies strictly in the past, yields status "expired". -/
theorem c7_session_status (store : Option (SessionData × ℤ)) (now : ℤ)
    (st : String) (ui tok : Option String) :
    (∀ d, redisGetSession store now = some d →
       ∃ p, (update_session_status store now st ui tok).2 = some p ∧
         p.1.status = st ∧ p.2 = now + 300 ∧
         (update_session_status store now st ui tok).1 = true) ∧
    (redisGetSession store now = none →
       update_session_status store now st ui tok = (false, store)) ∧
    (redisGetSession store now = none →
       getStrField (get_session_status store now) "status" = some "expired") ∧
    (∀ d, redisGetSession store now = some d → d.expires_at < now →
       getStrField (get_session_status store now) "status" = some "expired") := by
  refine ⟨?_, ?_, ?_, ?_⟩
  · intro d hd
    unfold update_session_status
    rw [hd]
    exact ⟨_, rfl, rfl, rfl, rfl⟩
  · intro hd
    simp [update_session_status, hd]
  · intro hd
    simp [get_session_status, hd, getStrField, lookupField]
  · intro d hd hexp
    simp [get_session_status, hd, hexp, getStrField, lookupField]

/-- C7 witness: a live pending session accepts an arbitrary status write;
a session past its stored expires_at queries as expired. -/
theorem c7_session_status_witness :
    (∃ p, (update_session_status
        (some (⟨"s1", "st", "pending", 0, 300, none, none⟩, 300)) 10
        "scanned" none none).2 = some p ∧
      p.1.status = "scanned" ∧ p.2 = 10 + 300 ∧
      (update_session_status
        (some (⟨"s1", "st", "pending", 0, 300, none, none⟩, 300)) 10
        "scanned" none none).1 = true) ∧
    getStrField
      (get_session_status
        (some (⟨"s2", "st", "pending", 0, 300, none, none⟩, 400)) 301)
      "status" = some "expired" :=
  ⟨(c7_session_status
      (some (⟨"s1", "st", "pending", 0, 300, none, none⟩, 300)) 10
      "scanned" none none).1
      ⟨"s1", "st", "pending", 0, 300, none, none⟩ (by decide),
   (c7_session_status
      (some (⟨"s2", "st", "pending", 0, 300, none, none⟩, 400)) 301
      "scanned" none none).2.2.2
      ⟨"s2", "st", "pending", 0, 300, none, none⟩ (by decide) (by decide)⟩

/-- C2: every row added by create_item and every row changed by a
successful update_item stores daily_cost equal to calculate_daily_cost of
its (possibly updated) purchase_amount and purchase_date: any row of the
post-state either was already in the table or satisfies the recompute
invariant. -/
theorem c2_daily_cost_recomputed (today : PyDate)
    (uid newId created_ts item_id now_ts : ℤ)
    (rawC : ItemCreateRaw) (rawU : ItemUpdateRaw) (db : List ItemRow) :
    (∀ r ∈ (create_item today uid newId created_ts rawC db).2,
       r ∈ db ∨
         r.daily_cost = calculate_daily_cost r.purchase_amount r.purchase_date today) ∧
    (∀ r ∈ (update_item today uid item_id now_ts rawU db).2,
       r ∈ db ∨
         r.daily_cost = calculate_daily_cost r.purchase_amount r.purchase_date today) := by
  constructor
  · intro r hr
    unfold create_item at hr
    split at hr
    · exact Or.inl hr
    · split at hr
      · exact Or.inl hr
      · simp only [List.mem_append, List.mem_singleton] at hr
        rcases hr with h | h
        · exact Or.inl h
        · subst h
          exact Or.inr rfl
  · intro r hr
    unfold update_item at hr
    split at hr
    · exact Or.inl hr
    · split at hr
      · exact Or.inl hr
      · split at hr
        · exact Or.inl hr
        · simp only [List.mem_map] at hr
          rcases hr with ⟨r0, hr0, hf⟩
          by_cases hc : item_lookup_cond uid item_id r0
          · rw [if_pos hc] at hf
            subst hf
            exact Or.inr rfl
          · rw [if_neg hc] at hf
            subst hf
            exact Or.inl hr0

def c2StoredRow : ItemRow :=
  { id := 1, user_id := 1, name := "pen", purchase_date := ⟨1, 1, 1⟩,
    purchase_amount := 5, daily_cost := 99, is_delete := false,
    created_at := 0, updated_at := 0 }

def c2UpdatedRow : ItemRow :=
  { c2StoredRow with
    daily_cost := calculate_daily_cost 5 ⟨1, 1, 1⟩ ⟨1, 1, 3⟩
    updated_at := 7 }

/-- C2 witness: a no-field update of a stored row still recomputes its
daily cost from its amount and date. -/
theorem c2_daily_cost_recomputed_witness :
    c2UpdatedRow ∈ [c2StoredRow] ∨
    c2UpdatedRow.daily_cost =
      calculate_daily_cost c2UpdatedRow.purchase_amount c2UpdatedRow.purchase_date
        ⟨1, 1, 3⟩ :=
  (c2_daily_cost_recomputed ⟨1, 1, 3⟩ 1 1 0 1 7
      ⟨"pen", "0001-01-01", 5⟩ ⟨none, none, none⟩ [c2StoredRow]).2
    c2UpdatedRow
    (by show c2UpdatedRow ∈ [c2UpdatedRow]; exact List.Mem.head _)

theorem validate_amount_error {v : ℚ} (h : v ≤ 0) :
    validate_amount v = Except.error "购买金额必须大于0" := by
  unfold validate_amount
  rw [if_pos h]

theorem validate_amount_ok {v a : ℚ} (h : validate_amount v = Except.ok a) :
    a = roundTo 2 v ∧ 0 < v := by
  unfold validate_amount at h
  split at h
  · exact absurd h (by simp)
  · next hv =>
    cases h
    exact ⟨rfl, not_le.mp hv⟩

theorem validate_date_str_error {today : PyDate} {v : String}
    (h : parse_date v = none ∨ ∃ d, parse_date v = some d ∧ dateLt today d) :
    validate_date_str today v = Except.error "日期格式无效，请使用 YYYY-MM-DD 格式" := by
  unfold validate_date_str
  rcases h with h | ⟨d, hd, hf⟩
  · rw [h]
  · simp only [hd]
    rw [if_pos hf]

theorem validateItemCreate_error_amount {today : PyDate} {raw : ItemCreateRaw}
    (h : raw.purchase_amount ≤ 0) :
    ∃ e, validateItemCreate today raw = Except.error e := by
  unfold validateItemCreate
  split
  · exact ⟨_, rfl⟩
  · split
    · exact ⟨_, rfl⟩
    · rw [validate_amount_error h]
      exact ⟨_, rfl⟩

theorem validateItemCreate_error_date {today : PyDate} {raw : ItemCreateRaw}
    (h : parse_date raw.purchase_date = none ∨
      ∃ d, parse_date raw.purchase_date = some d ∧ dateLt today d) :
    ∃ e, validateItemCreate today raw = Except.error e := by
  unfold validateItemCreate
  split
  · exact ⟨_, rfl⟩
  · rw [validate_date_str_error h]
    exact ⟨_, rfl⟩

theorem validateItemCreate_ok {today : PyDate} {raw v : ItemCreateRaw}
    (h : validateItemCreate today raw = Except.ok v) :
    v.purchase_amount = roundTo 2 raw.purchase_amount ∧ 0 < raw.purchase_amount := by
  unfold validateItemCreate at h
  split at h
  · exact absurd h (by simp)
  · split at h
    · exact absurd h (by simp)
    · split at h
      · exact absurd h (by simp)
      · next a ha =>
        cases h
        exact validate_amount_ok ha

theorem validateOptField_ok {f : α → Except String β} {x : α} {y : Option β}
    (h : validateOptField f (some x) = Except.ok y) :
    ∃ z, y = some z ∧ f x = Except.ok z := by
  simp only [validateOptField] at h
  split at h
  · exact absurd h (by simp)
  · next z hz =>
    cases h
    exact ⟨z, rfl, hz⟩

theorem validateItemUpdate_error_amount {today : PyDate} {raw : ItemUpdateRaw}
    {a : ℚ} (hA : raw.purchase_amount = some a) (h : a ≤ 0) :
    ∃ e, validateItemUpdate today raw = Except.error e := by
  unfold validateItemUpdate
  split
  · exact ⟨_, rfl⟩
  · split
    · exact ⟨_, rfl⟩
    · have hopt : validateOptField validate_amount raw.purchase_amount =
          Except.error "购买金额必须大于0" := by
        rw [hA]
        simp only [validateOptField]
        rw [validate_amount_error h]
      rw [hopt]
      exact ⟨_, rfl⟩

theorem validateItemUpdate_error_date {today : PyDate} {raw : ItemUpdateRaw}
    {ds : String} (hD : raw.purchase_date = some ds)
    (h : parse_date ds = none ∨ ∃ d, parse_date ds = some d ∧ dateLt today d) :
    ∃ e, validateItemUpdate today raw = Except.error e := by
  unfold validateItemUpdate
  split
  · exact ⟨_, rfl⟩
  · have hopt : validateOptField (validate_date_str today) raw.purchase_date =
        Except.error "日期格式无效，请使用 YYYY-MM-DD 格式" := by
      rw [hD]
      simp only [validateOptField]
      rw [validate_date_str_error h]
    rw [hopt]
    exact ⟨_, rfl⟩

theorem validateItemUpdate_ok_amount {today : PyDate} {raw v : ItemUpdateRaw}
    {a : ℚ} (h : validateItemUpdate today raw = Except.ok v)
    (hv : v.purchase_amount = some a) :
    ∃ a0, raw.purchase_amount = some a0 ∧ a = roundTo 2 a0 ∧ 0 < a0 := by
  unfold validateItemUpdate at h
  split at h
  · exact absurd h (by simp)
  · split at h
    · exact absurd h (by simp)
    · split at h
      · exact absurd h (by simp)
      · next aOpt haOpt =>
        cases h
        cases hao : raw.purchase_amount with
        | none =>
          rw [hao] at haOpt
          cases haOpt
          exact absurd hv (by simp)
        | some a0 =>
          rw [hao] at haOpt
          obtain ⟨z, hz, hfz⟩ := validateOptField_ok haOpt
          subst hz
          cases hv
          have := validate_amount_ok hfz
          exact ⟨a0, rfl, this.1, this.2⟩

/-- C4: create and update requests are validated at the request-model
layer, before any row is created or modified: a purchase_amount not
strictly greater than 0 is rejected with the table unchanged; a
purchase_date that does not parse as YYYY-MM-DD or that lies strictly
after today is rejected with the table unchanged; and every accepted
amount is round(amount, 2). -/
theorem c4_request_validation (today : PyDate)
    (uid newId created_ts item_id now_ts : ℤ)
    (rawC : ItemCreateRaw) (rawU : ItemUpdateRaw) (db : List ItemRow) :
    (rawC.purchase_amount ≤ 0 →
       (∃ e, (create_item today uid newId created_ts rawC db).1 = Except.error e) ∧
       (create_item today uid newId created_ts rawC db).2 = db) ∧
    ((parse_date rawC.purchase_date = none ∨
        ∃ d, parse_date rawC.purchase_date = some d ∧ dateLt today d) →
       (∃ e, (create_item today uid newId created_ts rawC db).1 = Except.error e) ∧
       (create_item today uid newId created_ts rawC db).2 = db) ∧
    (∀ v, validateItemCreate today rawC = Except.ok v →
       v.purchase_amount = roundTo 2 rawC.purchase_amount ∧
       0 < rawC.purchase_amount) ∧
    (∀ a, rawU.purchase_amount = some a → a ≤ 0 →
       (∃ e, (update_item today uid item_id now_ts rawU db).1 = Except.error e) ∧
       (update_item today uid item_id now_ts rawU db).2 = db) ∧
    (∀ ds, rawU.purchase_date = some ds →
       (parse_date ds = none ∨ ∃ d, parse_date ds = some d ∧ dateLt today d) →
       (∃ e, (update_item today uid item_id now_ts rawU db).1 = Except.error e) ∧
       (update_item today uid item_id now_ts rawU db).2 = db) ∧
    (∀ v a, validateItemUpdate today rawU = Except.ok v →
       v.purchase_amount = some a →
       ∃ a0, rawU.purchase_amount = some a0 ∧ a = roundTo 2 a0 ∧ 0 < a0) := by
  refine ⟨?_, ?_, ?_, ?_, ?_, ?_⟩
  · intro h
    obtain ⟨e, he⟩ := @validateItemCreate_error_amount today rawC h
    unfold create_item
    rw [he]
    exact ⟨⟨e, rfl⟩, rfl⟩
  · intro h
    obtain ⟨e, he⟩ := @validateItemCreate_error_date today rawC h
    unfold create_item
    rw [he]
    exact ⟨⟨e, rfl⟩, rfl⟩
  · intro v hv
    exact validateItemCreate_ok hv
  · intro a hA h
    obtain ⟨e, he⟩ := @validateItemUpdate_error_amount today rawU a hA h
    unfold update_item
    rw [he]
    exact ⟨⟨e, rfl⟩, rfl⟩
  · intro ds hD h
    obtain ⟨e, he⟩ := @validateItemUpdate_error_date today rawU ds hD h
    unfold update_item
    rw [he]
    exact ⟨⟨e, rfl⟩, rfl⟩
  · intro v a hv hva
    exact validateItemUpdate_ok_amount hv hva

/-- C4 witness: a negative amount and an unparsable date are rejected with
the table untouched, and an accepted amount of 5 is stored as round(5, 2). -/
theorem c4_request_validation_witness :
    ((∃ e, (create_item ⟨1, 1, 3⟩ 1 1 0 ⟨"pen", "0001-01-01", -1⟩ []).1 =
        Except.error e) ∧
     (create_item ⟨1, 1, 3⟩ 1 1 0 ⟨"pen", "0001-01-01", -1⟩ []).2 = []) ∧
    ((∃ e, (create_item ⟨1, 1, 3⟩ 1 1 0 ⟨"pen", "2024-13-42", 5⟩ []).1 =
        Except.error e) ∧
     (create_item ⟨1, 1, 3⟩ 1 1 0 ⟨"pen", "2024-13-42", 5⟩ []).2 = []) ∧
    ((⟨"pen", "0001-01-01", roundTo 2 5⟩ : ItemCreateRaw).purchase_amount =
        roundTo 2 ((⟨"pen", "0001-01-01", 5⟩ : ItemCreateRaw).purchase_amount) ∧
     0 < (⟨"pen", "0001-01-01", 5⟩ : ItemCreateRaw).purchase_amount) ∧
    ((∃ e, (update_item ⟨1, 1, 3⟩ 1 1 0 ⟨none, none, some (-1)⟩ []).1 =
        Except.error e) ∧
     (update_item ⟨1, 1, 3⟩ 1 1 0 ⟨none, none, some (-1)⟩ []).2 = []) := by
  have hamt : validate_amount (5 : ℚ) = Except.ok (roundTo 2 5) := by
    unfold validate_amount
    rw [if_neg (by norm_num)]
  have hname : validate_name "pen" = Except.ok "pen" := rfl
  have hdate : validate_date_str ⟨1, 1, 3⟩ "0001-01-01" = Except.ok "0001-01-01" := rfl
  have hval : validateItemCreate ⟨1, 1, 3⟩ ⟨"pen", "0001-01-01", 5⟩ =
      Except.ok ⟨"pen", "0001-01-01", roundTo 2 5⟩ := by
    unfold validateItemCreate
    rw [hname, hdate, hamt]
  refine ⟨?_, ?_, ?_, ?_⟩
  · exact (c4_request_validation ⟨1, 1, 3⟩ 1 1 0 1 0
      ⟨"pen", "0001-01-01", -1⟩ ⟨none, none, none⟩ []).1 (by norm_num)
  · exact (c4_request_validation ⟨1, 1, 3⟩ 1 1 0 1 0
      ⟨"pen", "2024-13-42", 5⟩ ⟨none, none, none⟩ []).2.1 (Or.inl (by decide))
  · exact (c4_request_validation ⟨1, 1, 3⟩ 1 1 0 1 0
      ⟨"pen", "0001-01-01", 5⟩ ⟨none, none, none⟩ []).2.2.1 _ hval
  · exact (c4_request_validation ⟨1, 1, 3⟩ 1 1 0 1 0
      ⟨"pen", "0001-01-01", 5⟩ ⟨none, none, some (-1)⟩ []).2.2.2.1 (-1) rfl
      (by norm_num)

theorem mem_insertSorted (le : ItemRow → ItemRow → Bool) (x a : ItemRow)
    (l : List ItemRow) : a ∈ insertSorted le x l ↔ a = x ∨ a ∈ l := by
  induction l with
  | nil => simp [insertSorted]
  | cons y ys ih =>
    unfold insertSorted
    by_cases h : le x y = true
    · rw [if_pos h]
      simp
    · rw [if_neg h]
      simp only [List.mem_cons, ih]
      tauto

theorem mem_orderBy (le : ItemRow → ItemRow → Bool) (a : ItemRow)
    (l : List ItemRow) : a ∈ orderBy le l ↔ a ∈ l := by
  induction l with
  | nil => simp [orderBy]
  | cons x xs ih =>
    unfold orderBy
    rw [mem_insertSorted]
    simp [ih]

theorem filter_of_implies {α : Type} {p q : α → Bool}
    (h : ∀ a, q a = true → p a = true) :
    ∀ l : List α, (l.filter p).filter q = l.filter q := by
  intro l
  induction l with
  | nil => rfl
  | cons a t ih =>
    by_cases hq : q a = true
    · have hp := h a hq
      simp [List.filter_cons, hp, hq, ih]
    · by_cases hp : p a = true <;> simp [List.filter_cons, hp, hq, ih]

/-- C3: soft-deleted rows never surface in a read: every row of a
get_items page is non-deleted, the single-item lookup shared by get_item,
update_item and delete_item only finds non-deleted rows, the overview
statistics are unchanged if the soft-deleted rows are removed first (so
they contribute to no aggregate), and the authentication user lookup only
returns a non-deleted user. -/
theorem c3_soft_delete_excluded (today : PyDate) (uid uid2 : ℤ)
    (search : Option String) (sd ed : Option PyDate) (sb so : String)
    (page size item_id : ℤ) (db : List ItemRow) (users : List UserRow) :
    (∀ r ∈ get_items_page_rows uid search sd ed sb so page size db,
       r.is_delete = false) ∧
    (∀ r, db.find? (item_lookup_cond uid item_id) = some r →
       r.is_delete = false) ∧
    (get_overview_stats today uid db =
       get_overview_stats today uid (db.filter (fun r => !r.is_delete))) ∧
    (∀ u, get_current_user_lookup users uid2 = some u → u.is_delete = false) := by
  refine ⟨?_, ?_, ?_, ?_⟩
  · intro r hr
    unfold get_items_page_rows at hr
    have h1 : r ∈ orderBy (sortComparator sb so)
        (get_items_selected uid search sd ed db) :=
      List.mem_of_mem_drop (List.mem_of_mem_take hr)
    have h2 := (mem_orderBy _ _ _).mp h1
    have h3 := (List.mem_filter.mp h2).2
    simp only [itemConds, Bool.and_eq_true, Bool.not_eq_true'] at h3
    exact h3.1.1.1.2
  · intro r hr
    have h := List.find?_some hr
    simp only [item_lookup_cond, Bool.and_eq_true, Bool.not_eq_true'] at h
    exact h.2
  · have himp : ∀ a : ItemRow, stats_base_cond uid a = true →
        (!a.is_delete) = true := by
      intro a ha
      simp only [stats_base_cond, Bool.and_eq_true] at ha
      exact ha.2
    have hb : ((db.filter (fun r => !r.is_delete)).filter (stats_base_cond uid)) =
        db.filter (stats_base_cond uid) := filter_of_implies himp db
    unfold get_overview_stats
    rw [hb]
  · intro u hu
    have h := List.find?_some hu
    simp only [Bool.and_eq_true, Bool.not_eq_true'] at h
    exact h.2

def c3DeletedRow : ItemRow :=
  { id := 1, user_id := 1, name := "old", purchase_date := ⟨1, 1, 1⟩,
    purchase_amount := 2, daily_cost := 2, is_delete := true,
    created_at := 0, updated_at := 0 }

def c3LiveRow : ItemRow :=
  { id := 2, user_id := 1, name := "new", purchase_date := ⟨1, 1, 2⟩,
    purchase_amount := 3, daily_cost := 3, is_delete := false,
    created_at := 1, updated_at := 1 }

def c3User : UserRow := { id := 1, openid := "oid", nickname := none, is_delete := false }

/-- C3 witness: with one deleted and one live row, the page contains only
the live row, the item lookup finds only the live row, the overview on the
full table equals the overview on the non-deleted rows, and the user
lookup returns the live user. -/
theorem c3_soft_delete_excluded_witness :
    c3LiveRow.is_delete = false ∧
    c3LiveRow.is_delete = false ∧
    (get_overview_stats ⟨1, 1, 3⟩ 1 [c3DeletedRow, c3LiveRow] =
       get_overview_stats ⟨1, 1, 3⟩ 1
         ([c3DeletedRow, c3LiveRow].filter (fun r => !r.is_delete))) ∧
    c3User.is_delete = false :=
  ⟨(c3_soft_delete_excluded ⟨1, 1, 3⟩ 1 1 none none none "purchase_date" "desc"
      1 10 2 [c3DeletedRow, c3LiveRow] [c3User]).1 c3LiveRow
      (by show c3LiveRow ∈ [c3LiveRow]; exact List.Mem.head _),
   (c3_soft_delete_excluded ⟨1, 1, 3⟩ 1 1 none none none "purchase_date" "desc"
      1 10 2 [c3DeletedRow, c3LiveRow] [c3User]).2.1 c3LiveRow rfl,
   (c3_soft_delete_excluded ⟨1, 1, 3⟩ 1 1 none none none "purchase_date" "desc"
      1 10 2 [c3DeletedRow, c3LiveRow] [c3User]).2.2.1,
   (c3_soft_delete_excluded ⟨1, 1, 3⟩ 1 1 none none none "purchase_date" "desc"
      1 10 2 [c3DeletedRow, c3LiveRow] [c3User]).2.2.2 c3User rfl⟩

theorem filter_and_eq {α : Type} (p q : α → Bool) (l : List α) :
    l.filter (fun a => p a && q a) = (l.filter p).filter q := by
  induction l with
  | nil => rfl
  | cons a t ih =>
    by_cases hp : p a = true <;> by_cases hq : q a = true <;>
      simp [List.filter_cons, hp, hq, ih]

/-- The non-ownership part of the get_items WHERE clause. -/
def itemRestConds (search : Option String) (sd ed : Option PyDate)
    (r : ItemRow) : Bool :=
  !r.is_delete &&
    (match search with
     | none => true
     | some s => strContains r.name s) &&
    (match sd with
     | none => true
     | some d => !dateLt r.purchase_date d) &&
    (match ed with
     | none => true
     | some d => !dateLt d r.purchase_date)

theorem itemConds_split (uid : ℤ) (search : Option String) (sd ed : Option PyDate)
    (r : ItemRow) :
    itemConds uid search sd ed r =
      ((r.user_id == uid) && itemRestConds search sd ed r) := by
  cases h : (r.user_id == uid) <;>
    simp [itemConds, itemRestConds, h, Bool.and_assoc]

theorem get_items_selected_scope (uid : ℤ) (search : Option String)
    (sd ed : Option PyDate) (db : List ItemRow) :
    get_items_selected uid search sd ed db =
      (db.filter (fun r => r.user_id == uid)).filter (itemRestConds search sd ed) := by
  unfold get_items_selected
  rw [List.filter_congr (fun r _ => itemConds_split uid search sd ed r),
    filter_and_eq]

theorem map_flip_filter_other (u : ℤ) (ids : List ℤ) (db : List ItemRow) :
    (db.map (fun r => if batch_cond u ids r then { r with is_delete := true } else r)).filter
        (fun r => !(r.user_id == u)) =
      db.filter (fun r => !(r.user_id == u)) := by
  induction db with
  | nil => rfl
  | cons a t ih =>
    by_cases hb : batch_cond u ids a = true
    · have hu : (a.user_id == u) = true := by
        simp only [batch_cond, Bool.and_eq_true] at hb
        exact hb.1.2
      simp [List.filter_cons, hb, hu, ih]
    · simp only [List.map_cons, List.filter_cons]
      rw [if_neg hb, ih]

/-- C9: item reads and writes are scoped to the authenticated user: the
get_items envelope is a function of the user's own rows alone, batch
delete leaves every other user's rows exactly as they were and only ever
touches or reports rows owned by the calling user, and the overview
statistics are a function of the user's own rows alone. -/
theorem c9_user_scoping (today : PyDate) (u : ℤ) (page size : ℤ)
    (search sdp edp : Option String) (sb so : String) (ids : List ℤ)
    (db db1 db2 : List ItemRow) :
    (db1.filter (fun r => r.user_id == u) = db2.filter (fun r => r.user_id == u) →
       get_items today u page size search sdp edp sb so db1 =
         get_items today u page size search sdp edp sb so db2) ∧
    ((batch_delete_items u ids db).2.filter (fun r => !(r.user_id == u)) =
       db.filter (fun r => !(r.user_id == u))) ∧
    (∀ r ∈ (batch_delete_items u ids db).2, r ∈ db ∨ r.user_id = u) ∧
    (∀ r ∈ db.filter (batch_cond u ids), r.user_id = u) ∧
    (db1.filter (fun r => r.user_id == u) = db2.filter (fun r => r.user_id == u) →
       get_overview_stats today u db1 = get_overview_stats today u db2) := by
  refine ⟨?_, ?_, ?_, ?_, ?_⟩
  · intro h
    unfold get_items
    cases parseOptDate sdp "开始日期格式无效" "INVALID_START_DATE" with
    | error e => rfl
    | ok sd0 =>
      cases parseOptDate edp "结束日期格式无效" "INVALID_END_DATE" with
      | error e => rfl
      | ok ed0 =>
        have hsel : get_items_selected u (optQueryParam search) sd0 ed0 db1 =
            get_items_selected u (optQueryParam search) sd0 ed0 db2 := by
          rw [get_items_selected_scope, get_items_selected_scope, h]
        unfold get_items_page_rows
        dsimp only
        rw [hsel]
  · unfold batch_delete_items
    split
    · rfl
    · exact map_flip_filter_other u ids db
  · intro r hr
    unfold batch_delete_items at hr
    split at hr
    · exact Or.inl hr
    · simp only [List.mem_map] at hr
      obtain ⟨r0, hr0, hf⟩ := hr
      by_cases hb : batch_cond u ids r0 = true
      · rw [if_pos hb] at hf
        subst hf
        right
        simp only [batch_cond, Bool.and_eq_true] at hb
        have h2 : r0.user_id = u := eq_of_beq hb.1.2
        simpa using h2
      · rw [if_neg hb] at hf
        subst hf
        exact Or.inl hr0
  · intro r hr
    have h := (List.mem_filter.mp hr).2
    simp only [batch_cond, Bool.and_eq_true] at h
    exact eq_of_beq h.1.2
  · intro h
    have hb : db1.filter (stats_base_cond u) = db2.filter (stats_base_cond u) := by
      show db1.filter (fun r => r.user_id == u && !r.is_delete) =
        db2.filter (fun r => r.user_id == u && !r.is_delete)
      rw [filter_and_eq, filter_and_eq, h]
    unfold get_overview_stats
    rw [hb]

def c9RowU1 : ItemRow :=
  { id := 1, user_id := 1, name := "mine", purchase_date := ⟨1, 1, 1⟩,
    purchase_amount := 2, daily_cost := 2, is_delete := false,
    created_at := 0, updated_at := 0 }

def c9RowOther : ItemRow :=
  { id := 7, user_id := 2, name := "theirs", purchase_date := ⟨1, 1, 2⟩,
    purchase_amount := 3, daily_cost := 3, is_delete := false,
    created_at := 1, updated_at := 1 }

/-- C9 witness: with user 1 owning one row and user 2 another, adding or
removing user 2's row changes neither user 1's list nor user 1's overview,
and user 1's batch delete flips only user 1's row. -/
theorem c9_user_scoping_witness :
    (get_items ⟨1, 1, 3⟩ 1 1 10 none none none "purchase_date" "desc"
        [c9RowU1, c9RowOther] =
      get_items ⟨1, 1, 3⟩ 1 1 10 none none none "purchase_date" "desc"
        [c9RowU1]) ∧
    ((batch_delete_items 1 [1] [c9RowU1, c9RowOther]).2.filter
        (fun r => !(r.user_id == 1)) =
      [c9RowU1, c9RowOther].filter (fun r => !(r.user_id == 1))) ∧
    ({ c9RowU1 with is_delete := true } ∈ ([c9RowU1, c9RowOther] : List ItemRow) ∨
      ({ c9RowU1 with is_delete := true } : ItemRow).user_id = 1) ∧
    c9RowU1.user_id = 1 ∧
    (get_overview_stats ⟨1, 1, 3⟩ 1 [c9RowU1, c9RowOther] =
      get_overview_stats ⟨1, 1, 3⟩ 1 [c9RowU1]) :=
  ⟨(c9_user_scoping ⟨1, 1, 3⟩ 1 1 10 none none none "purchase_date" "desc" [1]
      [] [c9RowU1, c9RowOther] [c9RowU1]).1 rfl,
   (c9_user_scoping ⟨1, 1, 3⟩ 1 1 10 none none none "purchase_date" "desc" [1]
      [c9RowU1, c9RowOther] [] []).2.1,
   (c9_user_scoping ⟨1, 1, 3⟩ 1 1 10 none none none "purchase_date" "desc" [1]
      [c9RowU1, c9RowOther] [] []).2.2.1 { c9RowU1 with is_delete := true }
      (by show ({ c9RowU1 with is_delete := true } : ItemRow) ∈
            [{ c9RowU1 with is_delete := true }, c9RowOther]
          exact List.Mem.head _),
   (c9_user_scoping ⟨1, 1, 3⟩ 1 1 10 none none none "purchase_date" "desc" [1]
      [c9RowU1, c9RowOther] [] []).2.2.2.1 c9RowU1
      (by show c9RowU1 ∈ [c9RowU1]; exact List.Mem.head _),
   (c9_user_scoping ⟨1, 1, 3⟩ 1 1 10 none none none "purchase_date" "desc" [1]
      [] [c9RowU1, c9RowOther] [c9RowU1]).2.2.2.2 rfl⟩

/-- C10 witness: total 7, size 3 gives pages 3. -/
theorem c10_pages_ceiling_witness :
    (1 : ℤ) ≤ 3 ∧ (0 : ℤ) ≤ 7 ∧
    ∃ p : ℤ,
      getPagesField (paginated_response [] 7 1 3 "m") = some p ∧
      p = pyFloorDiv (7 + 3 - 1) 3 ∧
      ((7 : ℤ) = 0 → p = 0) ∧
      ((0 : ℤ) < 7 → 7 ≤ p * 3 ∧ (p - 1) * 3 < 7) :=
  ⟨by decide, by decide, c10_pages_ceiling [] 7 1 3 "m" (by decide) (by decide)⟩
